import Mathlib

/-!
Shallow embedding of the support-portal ticket lifecycle (src/app.py):
data model, activity-log writer, lifecycle edits (standard save and
closing transition), reply emails, the staff-dashboard query and the
anonymous tracking lookup, together with theorems checking the spec's
claims against these definitions.
-/

/-- Ticket status values, the option list of the Status dropdown
(`["New", "Open", "Deferred", "Closed"]`, src/app.py line 108). -/
inductive Status
  | New
  | Open
  | Deferred
  | Closed
deriving DecidableEq, Repr

/-- Priority values, the option list `["Low", "Medium", "High"]`
(src/app.py line 113). -/
inductive Priority
  | Low
  | Medium
  | High
deriving DecidableEq, Repr

/-- Rendering of a status as in the Python string options. -/
def Status.toStr : Status → String
  | .New => "New"
  | .Open => "Open"
  | .Deferred => "Deferred"
  | .Closed => "Closed"

/-- Rendering of a priority as in the Python string options. -/
def Priority.toStr : Priority → String
  | .Low => "Low"
  | .Medium => "Medium"
  | .High => "High"

/-- A row of the `tickets` table.  `assigned_to`, `resolved_at` and
`resolution_summary` are nullable columns (Python `None`); timestamps are
abstracted as naturals. -/
structure Ticket where
  id : String
  customer_name : String
  email : String
  description : String
  priority : Priority
  category : String
  status : Status
  assigned_to : Option String
  created_at : Nat
  resolved_at : Option Nat
  resolution_summary : Option String
deriving DecidableEq, Repr

/-- A row inserted into the `ticket_notes` table. -/
structure NoteInsert where
  ticket_id : String
  note_text : String
  author_email : Option String
deriving DecidableEq, Repr

/-- One attempted outbound email: recipient, subject, body, and whether
`send_email` delivered it (its boolean return, src/app.py lines 28-42). -/
structure EmailSend where
  to_email : String
  subject : String
  body : String
  delivered : Bool
deriving DecidableEq, Repr

/-- Python `f"{x}"` rendering of a nullable string. -/
def optStr : Option String → String
  | none => "None"
  | some s => s

/-- The helper `log_activity` (src/app.py lines 84-89): inserts one note whose text is
the message with the `"⚙️ SYSTEM: "` label prepended and whose
`author_email` is the session user's email. -/
def log_activity (ticket_id : String) (message : String) (actor : String) :
    NoteInsert :=
  { ticket_id := ticket_id
    note_text := "⚙️ SYSTEM: " ++ message
    author_email := some actor }

/-- The observable effects of one button handler: the persisted ticket row,
the notes appended (in insertion order), the emails attempted (in order),
and the inline validation error shown, if any. -/
structure Effects where
  ticket : Ticket
  logs : List NoteInsert
  emails : List EmailSend
  error : Option String
deriving DecidableEq, Repr

/-- The "New Ticket" form submit (src/app.py lines 245-250): the inserted
row has status `New` and null assignee / resolution columns. -/
def createTicket (id customer_name email description : String)
    (priority : Priority) (category : String) (now : Nat) : Ticket :=
  { id := id
    customer_name := customer_name
    email := email
    description := description
    priority := priority
    category := category
    status := .New
    assigned_to := none
    created_at := now
    resolved_at := none
    resolution_summary := none }

/-- The "Close & Resolve" button handler (src/app.py lines 131-147): with a
non-empty resolution text it updates the row to Closed with the resolution
columns set, appends one system log entry and attempts the resolution
email (`deliver` is the transport outcome, ignored by the handler);
with an empty resolution text it shows "Resolution required." and does
nothing else. -/
def closeResolve (actor : String) (t : Ticket) (new_priority : Priority)
    (new_assign : Option String) (resolution_text : String) (now : Nat)
    (deliver : Bool) : Effects :=
  if resolution_text ≠ "" then
    { ticket :=
        { t with
          status := .Closed
          priority := new_priority
          assigned_to := new_assign
          resolved_at := some now
          resolution_summary := some resolution_text }
      logs := [log_activity t.id
        ("Ticket Closed. Resolution: " ++ resolution_text) actor]
      emails := [{ to_email := t.email
                   subject := "Ticket #" ++ t.id ++ " Resolved"
                   body := "Hi " ++ t.customer_name ++
                     ",\n\nYour ticket is resolved:\n" ++ resolution_text ++
                     "\n\nBest,\nSupport Team"
                   delivered := deliver }]
      error := none }
  else
    { ticket := t, logs := [], emails := [], error := some "Resolution required." }

/-- The "Save Changes" button handler (src/app.py lines 192-213): collects
change descriptions for status, priority and assignee in that order,
updates the row unconditionally, appends one system entry when the change
list is non-empty, and appends the manual note verbatim when one was
typed. -/
def saveChanges (actor : String) (t : Ticket) (new_status : Status)
    (new_priority : Priority) (new_assign : Option String)
    (new_note : String) : Effects :=
  let changes : List String :=
    (if new_status ≠ t.status then
      ["Status: " ++ t.status.toStr ++ " → " ++ new_status.toStr] else []) ++
    (if new_priority ≠ t.priority then
      ["Priority: " ++ t.priority.toStr ++ " → " ++ new_priority.toStr] else []) ++
    (if new_assign ≠ t.assigned_to then
      ["Assignee: " ++ optStr t.assigned_to ++ " → " ++ optStr new_assign] else [])
  { ticket := { t with
      status := new_status
      priority := new_priority
      assigned_to := new_assign }
    logs :=
      (if changes ≠ [] then
        [log_activity t.id ("Updated: " ++ String.intercalate ", " changes) actor]
      else []) ++
      (if new_note ≠ "" then
        [{ ticket_id := t.id, note_text := new_note, author_email := some actor }]
      else [])
    emails := []
    error := none }

/-- The Details tab of `ticket_popup` (src/app.py lines 104-213): the
assignee control yields the submitted value for an admin and reuses the
stored value otherwise (lines 116-124); the handler is the closing one
exactly when the selected status is Closed and the stored status is not
(line 127), and the standard save otherwise. -/
def ticketPopupApply (isAdmin : Bool) (actor : String) (t : Ticket)
    (new_status : Status) (new_priority : Priority)
    (submitted_assign : Option String) (resolution_text : String)
    (new_note : String) (now : Nat) (deliver : Bool) : Effects :=
  let new_assign := if isAdmin then submitted_assign else t.assigned_to
  if new_status = .Closed ∧ t.status ≠ .Closed then
    closeResolve actor t new_priority new_assign resolution_text now deliver
  else
    saveChanges actor t new_status new_priority new_assign new_note

/-- The "Send Email" button of the Reply tab (src/app.py lines 223-229):
nothing happens on an empty body; otherwise the email is attempted first,
and only a delivered one is logged — through `log_activity`, so the entry
text carries the system label in front of the `EMAIL SENT` marker. -/
def sendReplyClick (actor : String) (t : Ticket) (email_body : String)
    (deliver : Bool) : Effects :=
  if email_body ≠ "" then
    if deliver then
      { ticket := t
        logs := [log_activity t.id ("EMAIL SENT TO CUSTOMER:\n" ++ email_body) actor]
        emails := [{ to_email := t.email
                     subject := "Re: Ticket #" ++ t.id
                     body := email_body
                     delivered := true }]
        error := none }
    else
      { ticket := t
        logs := []
        emails := [{ to_email := t.email
                     subject := "Re: Ticket #" ++ t.id
                     body := email_body
                     delivered := false }]
        error := some "Failed." }
  else
    { ticket := t, logs := [], emails := [], error := none }

/-- Test that `p` begins the list `s` (character lists). -/
def hasPref : List Char → List Char → Bool
  | [], _ => true
  | _ :: _, [] => false
  | p :: ps, c :: cs => p == c && hasPref ps cs

/-- Test that `p` occurs somewhere inside `s` (character lists), Python's `in`. -/
def hasSub (p : List Char) : List Char → Bool
  | [] => hasPref p []
  | c :: cs => hasPref p (c :: cs) || hasSub p cs

/-- Python `pat in s` on strings. -/
def containsStr (s pat : String) : Bool :=
  hasSub pat.toList s.toList

/-- The three display styles of the activity-log renderer. -/
inductive NoteKind
  | system
  | emailOut
  | userNote
deriving DecidableEq, Repr

/-- Render-time classification of a note (src/app.py lines 173-186): the
system style when the text contains `"SYSTEM:"`, else the email style when
it contains `"EMAIL SENT"`, else the user-note style. -/
def renderKind (note_text : String) : NoteKind :=
  if containsStr note_text "SYSTEM:" then .system
  else if containsStr note_text "EMAIL SENT" then .emailOut
  else .userNote

/-- Python `str.isdigit` restricted to ASCII input: non-empty and made of
decimal digits only. -/
def pyIsdigit (s : String) : Bool :=
  !s.toList.isEmpty && s.toList.all Char.isDigit

/-- Python `int` on a digit string. -/
def digitsToNat (s : String) : Nat :=
  s.toList.foldl (fun n c => n * 10 + (c.toNat - 48)) 0

/-- Modelled from the spec: the server-side RPC `public_track_ticket` is
not under src/; per the spec's external-interface contract it returns the
row matching BOTH the numeric id and the email, and nothing on any
mismatch.  The numeric id is compared against the stored ticket id via its
decimal rendering. -/
def public_track_ticket (db : List Ticket) (ticket_id : Nat)
    (email_in : String) : List Ticket :=
  db.filter (fun t => t.id = toString ticket_id ∧ t.email = email_in)

/-- Outcome of the Track Ticket form. -/
inductive TrackResult
  | validationError (msg : String)
  | found (status : Status) (resolution_summary : Option String)
  | notFound (msg : String)
deriving DecidableEq, Repr

/-- Python `str.upper`: character-wise upper-casing. -/
def upperStr (s : String) : String :=
  String.mk (s.data.map Char.toUpper)

/-- The Track Ticket page submit (src/app.py lines 254-274): the typed id
is upper-cased; both fields are required, the id must be digits-only, and
an empty lookup result yields the single neutral not-found message. -/
def trackSubmit (db : List Ticket) (tid_input tem : String) : TrackResult :=
  let tid := upperStr tid_input
  if tid = "" ∨ tem = "" then
    .validationError "Please enter both Ticket ID and Email."
  else if ¬ pyIsdigit tid then
    .validationError "Ticket ID must be a number."
  else
    match public_track_ticket db (digitsToNat tid) tem with
    | [] => .notFound "No ticket found for that ID and email."
    | t :: _ => .found t.status t.resolution_summary

/-- Staff roles as read from the auth user's metadata. -/
inductive Role
  | admin
  | agent
deriving DecidableEq, Repr

/-- Descending creation-time order used by the dashboard. -/
def createdDesc (a b : Ticket) : Prop := b.created_at ≤ a.created_at

instance : DecidableRel createdDesc := fun a b => Nat.decLe b.created_at a.created_at

instance : IsTotal Ticket createdDesc :=
  ⟨fun a b => Nat.le_total b.created_at a.created_at⟩

instance : IsTrans Ticket createdDesc :=
  ⟨fun _ _ _ h h' => Nat.le_trans h' h⟩

/-- The Staff Dashboard query (src/app.py lines 278-282): an agent's query
carries the or-filter `assigned_to.is.null,assigned_to.eq.<own email>`, an
admin's does not, and both are ordered by `created_at` descending; the
storage service evaluates the filter row-wise and sorts. -/
def staffDashboardQuery (role : Role) (user_email : String)
    (db : List Ticket) : List Ticket :=
  let rows :=
    if role = .agent then
      db.filter (fun t => t.assigned_to = none ∨ t.assigned_to = some user_email)
    else db
  List.insertionSort createdDesc rows

/-- Ticket field-states reachable through the system's operations: the New
Ticket insert, and any pass through the Ticket Manager details tab (which
dispatches to the closing transition or the standard save). -/
inductive Reachable : Ticket → Prop
  | create (id customer_name email description : String) (priority : Priority)
      (category : String) (now : Nat) :
      Reachable (createTicket id customer_name email description priority category now)
  | edit (t : Ticket) (isAdmin : Bool) (actor : String) (new_status : Status)
      (new_priority : Priority) (submitted_assign : Option String)
      (resolution_text new_note : String) (now : Nat) (deliver : Bool) :
      Reachable t →
      Reachable (ticketPopupApply isAdmin actor t new_status new_priority
        submitted_assign resolution_text new_note now deliver).ticket

/-- The resolution columns are populated: a non-null, non-empty resolution
summary and a non-null resolution timestamp. -/
def resolutionPopulated (t : Ticket) : Prop :=
  t.resolution_summary ≠ none ∧ t.resolution_summary ≠ some "" ∧
    t.resolved_at ≠ none

instance (t : Ticket) : Decidable (resolutionPopulated t) := by
  unfold resolutionPopulated
  infer_instance

/-- Sample ticket from the New Ticket form. -/
def sampleTicket : Ticket :=
  createTicket "1234" "Alice" "a@x.com" "help" .Medium "Other" 0

/-- The sample ticket after an admin closes it with resolution "fixed". -/
def closedSample : Ticket :=
  (ticketPopupApply true "admin@x.com" sampleTicket .Closed .Medium none
    "fixed" "" 5 true).ticket

/-- The closed sample after an admin re-opens it with a standard save. -/
def reopenedSample : Ticket :=
  (ticketPopupApply true "admin@x.com" closedSample .Open .Medium none
    "" "" 9 true).ticket

lemma popup_closing (isAdmin : Bool) (actor : String) (t : Ticket)
    (np : Priority) (sa : Option String) (res note : String) (now : Nat)
    (d : Bool) (h2 : t.status ≠ Status.Closed) (h3 : res ≠ "") :
    ticketPopupApply isAdmin actor t Status.Closed np sa res note now d =
      { ticket :=
          { t with
            status := .Closed
            priority := np
            assigned_to := if isAdmin then sa else t.assigned_to
            resolved_at := some now
            resolution_summary := some res }
        logs := [log_activity t.id ("Ticket Closed. Resolution: " ++ res) actor]
        emails := [{ to_email := t.email
                     subject := "Ticket #" ++ t.id ++ " Resolved"
                     body := "Hi " ++ t.customer_name ++
                       ",\n\nYour ticket is resolved:\n" ++ res ++
                       "\n\nBest,\nSupport Team"
                     delivered := d }]
        error := none } := by
  simp [ticketPopupApply, closeResolve, h2, h3]

lemma popup_closing_empty (isAdmin : Bool) (actor : String) (t : Ticket)
    (np : Priority) (sa : Option String) (note : String) (now : Nat)
    (d : Bool) (h2 : t.status ≠ Status.Closed) :
    ticketPopupApply isAdmin actor t Status.Closed np sa "" note now d =
      { ticket := t, logs := [], emails := [],
        error := some "Resolution required." } := by
  simp [ticketPopupApply, closeResolve, h2]

lemma popup_standard (isAdmin : Bool) (actor : String) (t : Ticket)
    (ns : Status) (np : Priority) (sa : Option String) (res note : String)
    (now : Nat) (d : Bool)
    (h : ¬ (ns = Status.Closed ∧ t.status ≠ Status.Closed)) :
    ticketPopupApply isAdmin actor t ns np sa res note now d =
      saveChanges actor t ns np (if isAdmin then sa else t.assigned_to) note := by
  simp only [ticketPopupApply, if_neg h]

lemma saveChanges_ticket (actor : String) (t : Ticket) (ns : Status)
    (np : Priority) (na : Option String) (note : String) :
    (saveChanges actor t ns np na note).ticket =
      { t with status := ns, priority := np, assigned_to := na } := by
  simp [saveChanges]

/-- Claim C1, amended direction: along every reachable ticket state,
status Closed implies the resolution summary is non-empty and the
resolution timestamp is set. -/
theorem C1_closed_implies_resolution (t : Ticket) (h : Reachable t) :
    t.status = Status.Closed → resolutionPopulated t := by
  induction h with
  | create id customer_name email description priority category now =>
      intro hc
      exact absurd hc (by simp [createTicket])
  | edit t isAdmin actor ns np sa res note now d _ ih =>
      intro hc
      by_cases hcond : ns = Status.Closed ∧ t.status ≠ Status.Closed
      · by_cases hres : res = ""
        · rw [hcond.1, hres, popup_closing_empty isAdmin actor t np sa note now d hcond.2] at hc ⊢
          exact ih hc
        · rw [hcond.1, popup_closing isAdmin actor t np sa res note now d hcond.2 hres] at hc ⊢
          refine ⟨by simp, by simp [hres], by simp⟩
      · rw [popup_standard isAdmin actor t ns np sa res note now d hcond,
          saveChanges_ticket] at hc ⊢
        simp only at hc
        subst hc
        have hts : t.status = Status.Closed := by
          by_contra hne
          exact hcond ⟨rfl, hne⟩
        rcases ih hts with ⟨h1, h2, h3⟩
        exact ⟨h1, h2, h3⟩

/-- Claim C1, witness: the concretely closed sample ticket has its
resolution columns populated. -/
theorem C1_closed_implies_resolution_witness :
    resolutionPopulated closedSample :=
  C1_closed_implies_resolution closedSample
    (Reachable.edit sampleTicket true "admin@x.com" .Closed .Medium none
      "fixed" "" 5 true
      (Reachable.create "1234" "Alice" "a@x.com" "help" .Medium "Other" 0))
    (by decide)

/-- Claim C1, counterexample to the stated equivalence: re-opening a closed
ticket with a standard save is reachable, leaves the resolution columns
populated, yet the status is no longer Closed. -/
theorem C1_counterexample :
    Reachable reopenedSample ∧
    ¬ (reopenedSample.status = Status.Closed ↔ resolutionPopulated reopenedSample) := by
  constructor
  · exact Reachable.edit closedSample true "admin@x.com" .Open .Medium none
      "" "" 9 true
      (Reachable.edit sampleTicket true "admin@x.com" .Closed .Medium none
        "fixed" "" 5 true
        (Reachable.create "1234" "Alice" "a@x.com" "help" .Medium "Other" 0))
  · decide

/-- Claim C2: on a ticket that is not Closed, the closing transition with
an empty resolution summary changes nothing — same ticket row, no log
entry, no email — and shows the "Resolution required." validation error. -/
theorem C2_empty_resolution_aborts (isAdmin : Bool) (actor : String)
    (t : Ticket) (np : Priority) (sa : Option String) (note : String)
    (now : Nat) (d : Bool) (h : t.status ≠ Status.Closed) :
    ticketPopupApply isAdmin actor t Status.Closed np sa "" note now d =
      { ticket := t, logs := [], emails := [],
        error := some "Resolution required." } :=
  popup_closing_empty isAdmin actor t np sa note now d h

/-- Claim C2, witness at a concrete non-Closed ticket. -/
theorem C2_empty_resolution_aborts_witness :
    ticketPopupApply false "agent@x.com" sampleTicket Status.Closed
        Priority.High (some "b@x.com") "" "a note" 7 true =
      { ticket := sampleTicket, logs := [], emails := [],
        error := some "Resolution required." } :=
  C2_empty_resolution_aborts false "agent@x.com" sampleTicket Priority.High
    (some "b@x.com") "a note" 7 true (by decide)

/-- Claim C3: a closing transition with a non-empty resolution whose email
delivery fails still persists status Closed with both resolution columns
set, still writes the single SYSTEM "Ticket Closed" entry, records exactly
one undelivered email attempt, and persists the same row and logs as a run
whose delivery succeeds. -/
theorem C3_email_failure_keeps_close (isAdmin : Bool) (actor : String)
    (t : Ticket) (np : Priority) (sa : Option String) (res note : String)
    (now : Nat) (hs : t.status ≠ Status.Closed) (hr : res ≠ "") :
    (ticketPopupApply isAdmin actor t Status.Closed np sa res note now
        false).ticket.status = Status.Closed ∧
    (ticketPopupApply isAdmin actor t Status.Closed np sa res note now
        false).ticket.resolved_at = some now ∧
    (ticketPopupApply isAdmin actor t Status.Closed np sa res note now
        false).ticket.resolution_summary = some res ∧
    (ticketPopupApply isAdmin actor t Status.Closed np sa res note now
        false).logs =
      [log_activity t.id ("Ticket Closed. Resolution: " ++ res) actor] ∧
    (ticketPopupApply isAdmin actor t Status.Closed np sa res note now
        false).emails =
      [{ to_email := t.email
         subject := "Ticket #" ++ t.id ++ " Resolved"
         body := "Hi " ++ t.customer_name ++
           ",\n\nYour ticket is resolved:\n" ++ res ++ "\n\nBest,\nSupport Team"
         delivered := false }] ∧
    (ticketPopupApply isAdmin actor t Status.Closed np sa res note now
        false).ticket =
      (ticketPopupApply isAdmin actor t Status.Closed np sa res note now
        true).ticket ∧
    (ticketPopupApply isAdmin actor t Status.Closed np sa res note now
        false).logs =
      (ticketPopupApply isAdmin actor t Status.Closed np sa res note now
        true).logs := by
  rw [popup_closing isAdmin actor t np sa res note now false hs hr,
    popup_closing isAdmin actor t np sa res note now true hs hr]
  exact ⟨rfl, rfl, rfl, rfl, rfl, rfl, rfl⟩

/-- Claim C3, witness: failing delivery on a concrete close. -/
theorem C3_email_failure_keeps_close_witness :
    (ticketPopupApply true "admin@x.com" sampleTicket Status.Closed
        Priority.Medium none "fixed" "" 5 false).ticket.status =
      Status.Closed ∧
    (ticketPopupApply true "admin@x.com" sampleTicket Status.Closed
        Priority.Medium none "fixed" "" 5 false).logs =
      [log_activity "1234" "Ticket Closed. Resolution: fixed" "admin@x.com"] :=
  have h := C3_email_failure_keeps_close true "admin@x.com" sampleTicket
    Priority.Medium none "fixed" "" 5 (by decide) (by decide)
  ⟨h.1, h.2.2.2.1⟩

/-- The change descriptions as the spec words them: status, priority and
assignee compared independently, in that fixed order, each emitted as
`"<field>: <old> → <new>"` (spec-side definition for the refinement
statement of claim C4). -/
def specChangeDescriptions (t : Ticket) (ns : Status) (np : Priority)
    (na : Option String) : List String :=
  (if ns = t.status then []
    else ["Status: " ++ t.status.toStr ++ " → " ++ ns.toStr]) ++
  (if np = t.priority then []
    else ["Priority: " ++ t.priority.toStr ++ " → " ++ np.toStr]) ++
  (if na = t.assigned_to then []
    else ["Assignee: " ++ optStr t.assigned_to ++ " → " ++ optStr na])

/-- Claim C4: the standard save persists the row unconditionally, writes
one SYSTEM entry joining the fixed-order change descriptions exactly when
some field changed, and one USER-NOTE entry under the acting staff
identity exactly when a note was supplied. -/
theorem C4_standard_edit (actor : String) (t : Ticket) (ns : Status)
    (np : Priority) (na : Option String) (note : String) :
    saveChanges actor t ns np na note =
      { ticket := { t with status := ns, priority := np, assigned_to := na }
        logs :=
          (if specChangeDescriptions t ns np na = [] then []
           else [{ ticket_id := t.id
                   note_text := "⚙️ SYSTEM: " ++ ("Updated: " ++
                     String.intercalate ", " (specChangeDescriptions t ns np na))
                   author_email := some actor }]) ++
          (if note = "" then []
           else [{ ticket_id := t.id, note_text := note,
                   author_email := some actor }])
        emails := []
        error := none } := by
  simp only [saveChanges, specChangeDescriptions, log_activity, ne_eq, ite_not]

/-- Claim C5: for a non-admin actor, two runs of the Ticket Manager that
differ only in the submitted assignee produce identical effects, and the
persisted assignee always equals the pre-call stored assignee. -/
theorem C5_nonadmin_assignee_ignored (actor : String) (t : Ticket)
    (ns : Status) (np : Priority) (sa sa' : Option String) (res note : String)
    (now : Nat) (d : Bool) :
    ticketPopupApply false actor t ns np sa res note now d =
      ticketPopupApply false actor t ns np sa' res note now d ∧
    (ticketPopupApply false actor t ns np sa res note now d).ticket.assigned_to =
      t.assigned_to := by
  constructor
  · rfl
  · by_cases hcond : ns = Status.Closed ∧ t.status ≠ Status.Closed
    · by_cases hres : res = ""
      · rw [hcond.1, hres,
          popup_closing_empty false actor t np sa note now d hcond.2]
      · rw [hcond.1, popup_closing false actor t np sa res note now d hcond.2 hres]
        simp
    · rw [popup_standard false actor t ns np sa res note now d hcond,
        saveChanges_ticket]
      simp

/-- Claim C6: the dashboard query for an agent returns, most recently
created first, exactly the tickets that are unassigned or assigned to that
agent; the query for an admin returns every ticket, most recently created
first. -/
theorem C6_dashboard_query (user_email : String) (db : List Ticket) :
    ((staffDashboardQuery .agent user_email db).Perm
        (db.filter (fun t =>
          t.assigned_to = none ∨ t.assigned_to = some user_email)) ∧
      (∀ t : Ticket, t ∈ staffDashboardQuery .agent user_email db ↔
        t ∈ db ∧ (t.assigned_to = none ∨ t.assigned_to = some user_email)) ∧
      (staffDashboardQuery .agent user_email db).Sorted createdDesc) ∧
    ((staffDashboardQuery .admin user_email db).Perm db ∧
      (∀ t : Ticket, t ∈ staffDashboardQuery .admin user_email db ↔ t ∈ db) ∧
      (staffDashboardQuery .admin user_email db).Sorted createdDesc) := by
  refine ⟨⟨?_, ?_, ?_⟩, ⟨?_, ?_, ?_⟩⟩
  · simpa [staffDashboardQuery] using
      List.perm_insertionSort createdDesc
        (db.filter (fun t =>
          t.assigned_to = none ∨ t.assigned_to = some user_email))
  · intro t
    constructor
    · intro ht
      have := (List.perm_insertionSort createdDesc
        (db.filter (fun t =>
          t.assigned_to = none ∨ t.assigned_to = some user_email))).mem_iff.mp
        (by simpa [staffDashboardQuery] using ht)
      simpa using List.mem_filter.mp this
    · intro ht
      have : t ∈ db.filter (fun t =>
          t.assigned_to = none ∨ t.assigned_to = some user_email) :=
        List.mem_filter.mpr (by simpa using ht)
      simpa [staffDashboardQuery] using
        (List.perm_insertionSort createdDesc
          (db.filter (fun t =>
            t.assigned_to = none ∨ t.assigned_to = some user_email))).mem_iff.mpr
          this
  · simpa [staffDashboardQuery] using
      List.sorted_insertionSort createdDesc
        (db.filter (fun t =>
          t.assigned_to = none ∨ t.assigned_to = some user_email))
  · simpa [staffDashboardQuery] using List.perm_insertionSort createdDesc db
  · exact fun t => (List.perm_insertionSort createdDesc db).mem_iff
  · simpa [staffDashboardQuery] using List.sorted_insertionSort createdDesc db

lemma upperStr_eq_empty_iff (s : String) : upperStr s = "" ↔ s = "" := by
  cases s with
  | mk data =>
    simp [upperStr, String.ext_iff, List.map_eq_nil_iff]

/-- Claim C7: the tracking form demands both fields and a digits-only id,
otherwise it shows the matching validation error and performs no lookup;
and every non-matching valid (id, email) pair — wrong id or wrong email
alike — yields the one neutral not-found message, so two non-matching
submissions are indistinguishable. -/
theorem C7_tracking_lookup :
    (∀ (db : List Ticket) (tid tem : String), tid = "" ∨ tem = "" →
      trackSubmit db tid tem =
        .validationError "Please enter both Ticket ID and Email.") ∧
    (∀ (db : List Ticket) (tid tem : String), tid ≠ "" → tem ≠ "" →
      pyIsdigit (upperStr tid) = false →
      trackSubmit db tid tem =
        .validationError "Ticket ID must be a number.") ∧
    (∀ (db : List Ticket) (tid tem : String), tid ≠ "" → tem ≠ "" →
      pyIsdigit (upperStr tid) = true →
      (∀ t ∈ db, ¬ (t.id = toString (digitsToNat (upperStr tid)) ∧ t.email = tem)) →
      trackSubmit db tid tem =
        .notFound "No ticket found for that ID and email.") ∧
    (∀ (db : List Ticket) (tid1 tem1 tid2 tem2 : String),
      tid1 ≠ "" → tem1 ≠ "" → pyIsdigit (upperStr tid1) = true →
      (∀ t ∈ db, ¬ (t.id = toString (digitsToNat (upperStr tid1)) ∧ t.email = tem1)) →
      tid2 ≠ "" → tem2 ≠ "" → pyIsdigit (upperStr tid2) = true →
      (∀ t ∈ db, ¬ (t.id = toString (digitsToNat (upperStr tid2)) ∧ t.email = tem2)) →
      trackSubmit db tid1 tem1 = trackSubmit db tid2 tem2) := by
  have key : ∀ (db : List Ticket) (tid tem : String), tid ≠ "" → tem ≠ "" →
      pyIsdigit (upperStr tid) = true →
      (∀ t ∈ db, ¬ (t.id = toString (digitsToNat (upperStr tid)) ∧ t.email = tem)) →
      trackSubmit db tid tem =
        .notFound "No ticket found for that ID and email." := by
    intro db tid tem htid htem hdig hno
    have h1 : ¬ (upperStr tid = "" ∨ tem = "") := by
      push_neg
      exact ⟨fun hh => htid ((upperStr_eq_empty_iff tid).mp hh), htem⟩
    have h2 : public_track_ticket db (digitsToNat (upperStr tid)) tem = [] := by
      rw [public_track_ticket, List.filter_eq_nil_iff]
      intro t ht
      simpa using hno t ht
    simp [trackSubmit, h1, hdig, h2]
  refine ⟨?_, ?_, key, ?_⟩
  · intro db tid tem h
    rcases h with h | h
    · subst h
      have h0 : upperStr "" = "" := rfl
      simp [trackSubmit, h0]
    · simp [trackSubmit, h]
  · intro db tid tem htid htem hdig
    have h1 : ¬ (upperStr tid = "" ∨ tem = "") := by
      push_neg
      exact ⟨fun hh => htid ((upperStr_eq_empty_iff tid).mp hh), htem⟩
    simp [trackSubmit, h1, hdig]
  · intro db tid1 tem1 tid2 tem2 h1 h2 h3 h4 h5 h6 h7 h8
    rw [key db tid1 tem1 h1 h2 h3 h4, key db tid2 tem2 h5 h6 h7 h8]

/-- Claim C7, witness: the right id with the wrong email is rejected with
the neutral not-found message. -/
theorem C7_tracking_lookup_witness :
    trackSubmit [sampleTicket] "1234" "wrong@x.com" =
      TrackResult.notFound "No ticket found for that ID and email." :=
  C7_tracking_lookup.2.2.1 [sampleTicket] "1234" "wrong@x.com"
    (by decide) (by decide) (by decide) (by decide)

/-- Ticket fixture for the reply-tab checks. -/
def replyT : Ticket := createTicket "77" "Bob" "b@x.com" "broken" .Low "Data" 3

/-- Claim C8, evaluated at the failing input (a delivered reply "hello"):
the single appended entry carries the full body and the EMAIL SENT marker,
but — because it is written through `log_activity` — it also contains
"SYSTEM:", so the renderer classifies it as a SYSTEM entry, not as an
email entry; a failed delivery logs nothing and reports "Failed.", and an
empty body does nothing. -/
theorem C8_reply_log_classified_system :
    (sendReplyClick "agent@x.com" replyT "hello" true).logs =
      [{ ticket_id := "77"
         note_text := "⚙️ SYSTEM: EMAIL SENT TO CUSTOMER:\nhello"
         author_email := some "agent@x.com" }] ∧
    containsStr "⚙️ SYSTEM: EMAIL SENT TO CUSTOMER:\nhello" "hello" = true ∧
    containsStr "⚙️ SYSTEM: EMAIL SENT TO CUSTOMER:\nhello" "EMAIL SENT" = true ∧
    renderKind "⚙️ SYSTEM: EMAIL SENT TO CUSTOMER:\nhello" = NoteKind.system ∧
    (sendReplyClick "agent@x.com" replyT "hello" false).logs = [] ∧
    (sendReplyClick "agent@x.com" replyT "hello" false).error = some "Failed." ∧
    sendReplyClick "agent@x.com" replyT "" true =
      { ticket := replyT, logs := [], emails := [], error := none } := by
  decide

/-- Claim C9, counterexample: the SYSTEM entry written by a reachable
closing transition carries the acting admin's email as its author, so its
author identity field is not null. -/
theorem C9_counterexample :
    (ticketPopupApply true "admin@x.com" sampleTicket Status.Closed
        Priority.Medium none "fixed" "" 5 true).logs =
      [{ ticket_id := "1234"
         note_text := "⚙️ SYSTEM: Ticket Closed. Resolution: fixed"
         author_email := some "admin@x.com" }] ∧
    renderKind "⚙️ SYSTEM: Ticket Closed. Resolution: fixed" =
      NoteKind.system ∧
    some "admin@x.com" ≠ (none : Option String) := by
  decide

/-- Claim C9, amended: every activity-log entry this system writes —
SYSTEM entries included — carries the acting staff user's email as its
author identity; the field is never null for entries written here. -/
theorem C9_author_always_actor :
    (∀ (isAdmin : Bool) (actor : String) (t : Ticket) (ns : Status)
        (np : Priority) (sa : Option String) (res note : String) (now : Nat)
        (d : Bool) (n : NoteInsert),
      n ∈ (ticketPopupApply isAdmin actor t ns np sa res note now d).logs →
      n.author_email = some actor) ∧
    (∀ (actor : String) (t : Ticket) (body : String) (d : Bool)
        (n : NoteInsert),
      n ∈ (sendReplyClick actor t body d).logs →
      n.author_email = some actor) := by
  constructor
  · intro isAdmin actor t ns np sa res note now d n hn
    by_cases hcond : ns = Status.Closed ∧ t.status ≠ Status.Closed
    · by_cases hres : res = ""
      · rw [hcond.1, hres,
          popup_closing_empty isAdmin actor t np sa note now d hcond.2] at hn
        simp at hn
      · rw [hcond.1,
          popup_closing isAdmin actor t np sa res note now d hcond.2 hres] at hn
        rcases List.mem_singleton.mp hn with rfl
        rfl
    · rw [popup_standard isAdmin actor t ns np sa res note now d hcond] at hn
      simp [saveChanges, log_activity] at hn
      rcases hn with ⟨-, rfl⟩ | ⟨-, rfl⟩
      · rfl
      · rfl
  · intro actor t body d n hn
    by_cases hb : body = ""
    · subst hb
      simp [sendReplyClick] at hn
    · by_cases hd : d = true
      · subst hd
        simp [sendReplyClick, hb, log_activity] at hn
        subst hn
        rfl
      · rw [Bool.not_eq_true] at hd
        subst hd
        simp [sendReplyClick, hb] at hn

/-- Claim C9, witness for the amended statement: the concrete close entry's
author is the acting admin. -/
theorem C9_author_always_actor_witness :
    ({ ticket_id := "1234"
       note_text := "⚙️ SYSTEM: Ticket Closed. Resolution: fixed"
       author_email := some "admin@x.com" } : NoteInsert).author_email =
      some "admin@x.com" :=
  C9_author_always_actor.1 true "admin@x.com" sampleTicket Status.Closed
    Priority.Medium none "fixed" "" 5 true _ (by decide)

/-- Claim C10: render-time classification tests "SYSTEM:" containment
first, then "EMAIL SENT", else user note; hence a staff note whose text
contains "SYSTEM:" is stored verbatim as a USER-NOTE insert yet rendered
as a SYSTEM entry. -/
theorem C10_render_precedence :
    (∀ s : String, containsStr s "SYSTEM:" = true →
      renderKind s = NoteKind.system) ∧
    (∀ s : String, containsStr s "SYSTEM:" = false →
      containsStr s "EMAIL SENT" = true → renderKind s = NoteKind.emailOut) ∧
    (∀ s : String, containsStr s "SYSTEM:" = false →
      containsStr s "EMAIL SENT" = false → renderKind s = NoteKind.userNote) ∧
    (∀ (actor : String) (t : Ticket) (ns : Status) (np : Priority)
        (na : Option String) (note : String),
      containsStr note "SYSTEM:" = true → note ≠ "" →
      ∃ n : NoteInsert, n ∈ (saveChanges actor t ns np na note).logs ∧
        n.note_text = note ∧ n.author_email = some actor ∧
        renderKind n.note_text = NoteKind.system) := by
  refine ⟨?_, ?_, ?_, ?_⟩
  · intro s h
    simp [renderKind, h]
  · intro s h h'
    simp [renderKind, h, h']
  · intro s h h'
    simp [renderKind, h, h']
  · intro actor t ns np na note hc hne
    refine ⟨{ ticket_id := t.id, note_text := note, author_email := some actor },
      ?_, rfl, rfl, by simp [renderKind, hc]⟩
    simp [saveChanges, hne]

/-- Claim C10, witness: a staff note reading "see SYSTEM: warning" lands in
the log verbatim but is rendered as a SYSTEM entry. -/
theorem C10_render_precedence_witness :
    ∃ n : NoteInsert,
      n ∈ (saveChanges "agent@x.com" sampleTicket Status.New Priority.Medium
        none "see SYSTEM: warning").logs ∧
      n.note_text = "see SYSTEM: warning" ∧
      n.author_email = some "agent@x.com" ∧
      renderKind n.note_text = NoteKind.system :=
  C10_render_precedence.2.2.2 "agent@x.com" sampleTicket Status.New
    Priority.Medium none "see SYSTEM: warning" (by decide) (by decide)
